import Mathlib

/-!
Verification of `src/backend/endpoints.py` (obs-demo backend).

The Python module is embedded shallowly:

* JSON-ish values flowing through `dict[str, Any]` fields are the inductive
  `Value`; Python dicts become insertion-ordered association lists.
* Pydantic models become structures with the same field names; pydantic
  field defaults are modelled by `*Wire` structures with `Option` fields
  plus an `ofWire` parse function applying the declared defaults.
* Endpoint handlers become pure functions; external services
  (`scan_network`, `discover_objects`, `classify_graph_sync`,
  `enhance_graph_sync`, `urllib.request.urlopen`, `json.loads`,
  `yaml.safe_load`) are oracle parameters.
* The module-level census cache `_last_device_uids_by_id` is explicit
  state threaded through the handlers; CPython numeric coercions
  (`float(x)`, `int(x)`, `bool(x)`) and truthiness are modelled by
  `pyFloat`, `pyIntCoerce`, `pyBool`, `pyTruthy` on `Value`, as documented
  at each definition.
-/

namespace Obs

/-- A JSON-style Python value, the payload type behind `Any` in the
pydantic models (`attrs`, option bags, topology payloads).  Objects keep
insertion order, as Python dicts do. -/
inductive Value where
  | vnull : Value
  | vbool (b : Bool) : Value
  | vnum (q : ℚ) : Value
  | vstr (s : String) : Value
  | varr (elems : List Value) : Value
  | vobj (fields : List (String × Value)) : Value
  deriving Repr

/-- Python dict with string keys: an insertion-ordered association list. -/
abbrev PyDict := List (String × Value)

/-- `d.get(k)` / `d.get(k) is None`-style lookup on a Python dict. -/
def pyGet : PyDict → String → Option Value
  | [], _ => none
  | p :: t, k => if p.1 = k then some p.2 else pyGet t k

/-- Python truthiness (`bool(x)` / `not x`) of a JSON-style value:
`None`, `False`, `0`, `""`, `[]`, `{}` are falsy, everything else truthy. -/
def pyTruthy : Value → Bool
  | .vnull => false
  | .vbool b => b
  | .vnum q => q ≠ 0
  | .vstr s => s ≠ ""
  | .varr elems => !elems.isEmpty
  | .vobj fields => !fields.isEmpty

/-- Truthiness of a Python value that is a `str | None` field:
`None` and `""` are falsy. -/
def pyTruthyStrOpt : Option String → Bool
  | none => false
  | some s => s ≠ ""

-- ---------------------------------------------------------------------------
-- Graph model (obs.graph) and its API mirror (endpoints.py lines 30-134)
-- ---------------------------------------------------------------------------

/-- `obs.graph.Node`: id, type tag, ordered tags, attribute mapping. -/
structure Node where
  id : String
  type : String
  tags : List String
  attrs : List (String × Value)
  deriving Repr

/-- `obs.graph.Edge`. -/
structure Edge where
  source : String
  target : String
  type : String
  attrs : List (String × Value)
  deriving Repr

/-- `obs.graph.GraphMeta`. -/
structure GraphMeta where
  created_at : String
  source : String
  input : List (String × Value)
  timings : List (String × Value)
  success : Bool
  errors : List String
  error_details : List (List (String × Value))
  extra : List (String × Value)
  deriving Repr

/-- `obs.graph.Graph`: nodes, edges and one meta record. -/
structure Graph where
  nodes : List Node
  edges : List Edge
  meta : GraphMeta
  deriving Repr

/-- `NodeResponse` (endpoints.py:30-47), the wire mirror of `Node`. -/
structure NodeResponse where
  id : String
  type : String
  tags : List String
  attrs : List (String × Value)
  deriving Repr

/-- `NodeResponse.from_node`: `cls(id=node.id, type=node.type,
tags=list(node.tags), attrs=dict(node.attrs))`; `list`/`dict` copies are
identities on immutable contents. -/
def NodeResponse.from_node (node : Node) : NodeResponse :=
  { id := node.id, type := node.type, tags := node.tags, attrs := node.attrs }

/-- `NodeResponse.to_node` (endpoints.py:44-47). -/
def NodeResponse.to_node (r : NodeResponse) : Node :=
  { id := r.id, type := r.type, tags := r.tags, attrs := r.attrs }

/-- `EdgeResponse` (endpoints.py:50-73). -/
structure EdgeResponse where
  source : String
  target : String
  type : String
  attrs : List (String × Value)
  deriving Repr

/-- `EdgeResponse.from_edge` (endpoints.py:58-65). -/
def EdgeResponse.from_edge (edge : Edge) : EdgeResponse :=
  { source := edge.source, target := edge.target, type := edge.type,
    attrs := edge.attrs }

/-- `EdgeResponse.to_edge` (endpoints.py:67-73). -/
def EdgeResponse.to_edge (r : EdgeResponse) : Edge :=
  { source := r.source, target := r.target, type := r.type, attrs := r.attrs }

/-- `GraphMetaResponse` (endpoints.py:76-111). -/
structure GraphMetaResponse where
  created_at : String
  source : String
  input : List (String × Value)
  timings : List (String × Value)
  success : Bool
  errors : List String
  error_details : List (List (String × Value))
  extra : List (String × Value)
  deriving Repr

/-- `GraphMetaResponse.from_meta` (endpoints.py:88-99). -/
def GraphMetaResponse.from_meta (meta : GraphMeta) : GraphMetaResponse :=
  { created_at := meta.created_at, source := meta.source,
    input := meta.input, timings := meta.timings, success := meta.success,
    errors := meta.errors, error_details := meta.error_details,
    extra := meta.extra }

/-- `GraphMetaResponse.to_meta` (endpoints.py:101-111). -/
def GraphMetaResponse.to_meta (r : GraphMetaResponse) : GraphMeta :=
  { created_at := r.created_at, source := r.source, input := r.input,
    timings := r.timings, success := r.success, errors := r.errors,
    error_details := r.error_details, extra := r.extra }

/-- `GraphResponse` (endpoints.py:114-134). -/
structure GraphResponse where
  nodes : List NodeResponse
  edges : List EdgeResponse
  meta : GraphMetaResponse
  deriving Repr

/-- `GraphResponse.from_graph` (endpoints.py:121-127). -/
def GraphResponse.from_graph (graph : Graph) : GraphResponse :=
  { nodes := graph.nodes.map NodeResponse.from_node,
    edges := graph.edges.map EdgeResponse.from_edge,
    meta := GraphMetaResponse.from_meta graph.meta }

/-- `GraphResponse.to_graph` (endpoints.py:129-134). -/
def GraphResponse.to_graph (r : GraphResponse) : Graph :=
  { nodes := r.nodes.map NodeResponse.to_node,
    edges := r.edges.map EdgeResponse.to_edge,
    meta := r.meta.to_meta }

-- Wire-side field presence: every pydantic field of the response models may
-- be absent in the incoming JSON body; an absent field takes the declared
-- default (`Field(default_factory=list/dict)`, `= ""`, `= True`).

/-- Incoming JSON body for `GraphMetaResponse`: every field optional. -/
structure GraphMetaWire where
  created_at : Option String := none
  source : Option String := none
  input : Option (List (String × Value)) := none
  timings : Option (List (String × Value)) := none
  success : Option Bool := none
  errors : Option (List String) := none
  error_details : Option (List (List (String × Value))) := none
  extra : Option (List (String × Value)) := none
  deriving Repr

/-- Pydantic validation of `GraphMetaResponse`: absent fields take the
declared defaults `""`, `""`, `{}`, `{}`, `True`, `[]`, `[]`, `{}`
(endpoints.py:79-86). -/
def GraphMetaResponse.ofWire (w : GraphMetaWire) : GraphMetaResponse :=
  { created_at := w.created_at.getD "", source := w.source.getD "",
    input := w.input.getD [], timings := w.timings.getD [],
    success := w.success.getD true, errors := w.errors.getD [],
    error_details := w.error_details.getD [], extra := w.extra.getD [] }

/-- Incoming JSON body for `NodeResponse`: `id`/`type` required,
`tags`/`attrs` optional. -/
structure NodeWire where
  id : String
  type : String
  tags : Option (List String) := none
  attrs : Option (List (String × Value)) := none
  deriving Repr

/-- Pydantic validation of `NodeResponse`: absent `tags`/`attrs` default to
empty list/dict (endpoints.py:35-36). -/
def NodeResponse.ofWire (w : NodeWire) : NodeResponse :=
  { id := w.id, type := w.type, tags := w.tags.getD [],
    attrs := w.attrs.getD [] }

/-- Incoming JSON body for `EdgeResponse`: `attrs` optional. -/
structure EdgeWire where
  source : String
  target : String
  type : String
  attrs : Option (List (String × Value)) := none
  deriving Repr

/-- Pydantic validation of `EdgeResponse` (endpoints.py:56). -/
def EdgeResponse.ofWire (w : EdgeWire) : EdgeResponse :=
  { source := w.source, target := w.target, type := w.type,
    attrs := w.attrs.getD [] }

/-- Incoming JSON body for `GraphResponse`: every field optional. -/
structure GraphWire where
  nodes : Option (List NodeWire) := none
  edges : Option (List EdgeWire) := none
  meta : Option GraphMetaWire := none
  deriving Repr

/-- Pydantic validation of `GraphResponse`: absent `nodes`/`edges` default
to empty lists, absent `meta` to a default `GraphMetaResponse`
(endpoints.py:117-119). -/
def GraphResponse.ofWire (w : GraphWire) : GraphResponse :=
  { nodes := (w.nodes.getD []).map NodeResponse.ofWire,
    edges := (w.edges.getD []).map EdgeResponse.ofWire,
    meta := GraphMetaResponse.ofWire (w.meta.getD {}) }

-- ---------------------------------------------------------------------------
-- CPython coercions used by the handlers
-- ---------------------------------------------------------------------------

/-- A CPython exception as raised by a coercion: `int()`/`float()` raise
`ValueError` on an unparsable string and `TypeError` on an argument of the
wrong type.  The distinction matters: `_device_to_census` catches only
`ValueError`, while the classify/enhance handlers catch both. -/
inductive PyExc where
  | valueError (msg : String)
  | typeError (msg : String)
  deriving Repr, DecidableEq

instance {ε α : Type _} [DecidableEq ε] [DecidableEq α] :
    DecidableEq (Except ε α) := fun x y =>
  match x, y with
  | .ok a, .ok b =>
      if h : a = b then .isTrue (by rw [h])
      else .isFalse (fun hh => by injection hh with h2; exact h h2)
  | .error a, .error b =>
      if h : a = b then .isTrue (by rw [h])
      else .isFalse (fun hh => by injection hh with h2; exact h h2)
  | .ok _, .error _ => .isFalse (fun hh => Except.noConfusion hh)
  | .error _, .ok _ => .isFalse (fun hh => Except.noConfusion hh)

/-- Python `repr` of a string (simple quoting; CPython escapes are not
needed for the inputs considered here). -/
def pyReprStr (s : String) : String := "\x27" ++ s ++ "\x27"

mutual

/-- Python `repr` of a JSON-style value.  Non-integer numerals are
rendered as `num/den`, an approximation of CPython float repr that no
theorem below depends on. -/
def pyRepr : Value → String
  | .vnull => "None"
  | .vbool b => if b then "True" else "False"
  | .vnum q => if q.den = 1 then toString q.num
      else toString q.num ++ "/" ++ toString q.den
  | .vstr s => pyReprStr s
  | .varr elems => "[" ++ String.intercalate ", " (pyReprList elems) ++ "]"
  | .vobj fields =>
      "\x7b" ++ String.intercalate ", " (pyReprFields fields) ++ "\x7d"

/-- `repr` of each element of a Python list. -/
def pyReprList : List Value → List String
  | [] => []
  | v :: t => pyRepr v :: pyReprList t

/-- `repr` of each `key: value` pair of a Python dict. -/
def pyReprFields : List (String × Value) → List String
  | [] => []
  | p :: t => (pyReprStr p.1 ++ ": " ++ pyRepr p.2) :: pyReprFields t

end

/-- Whether `needle` occurs at the start of `hay`. -/
def leadsWith : List Char → List Char → Bool
  | [], _ => true
  | _ :: _, [] => false
  | a :: as, b :: bs => a == b && leadsWith as bs

/-- Whether `needle` occurs contiguously anywhere in `hay`. -/
def containsChars (hay needle : List Char) : Bool :=
  match hay with
  | [] => needle.isEmpty
  | _ :: t => leadsWith needle hay || containsChars t needle

/-- Substring test: whether a rendering of a value occurs inside an error
detail ("the detail names the offending value"). -/
def strContainsSub (hay needle : String) : Bool :=
  containsChars hay.toList needle.toList

/-- Truncation toward zero, CPython `int(float)`. -/
def pyTrunc (q : ℚ) : ℤ := if 0 ≤ q then ⌊q⌋ else -⌊-q⌋

/-- Strip leading spaces from a character list. -/
def dropSpaces : List Char → List Char
  | [] => []
  | c :: t => if c = ' ' then dropSpaces t else c :: t

/-- Strip leading and trailing spaces (`str.strip()` as `int()`/`float()`
apply it; only the space character is modelled). -/
def trimChars (cs : List Char) : List Char :=
  (dropSpaces (dropSpaces cs).reverse).reverse

/-- Accumulate decimal digits; any non-digit character fails. -/
def parseDigits : List Char → ℕ → Option ℕ
  | [], acc => some acc
  | c :: t, acc =>
      if c.isDigit then parseDigits t (acc * 10 + (c.toNat - 48)) else none

/-- Parse a non-empty all-digit character list. -/
def parseNatChars (cs : List Char) : Option ℕ :=
  if cs.isEmpty then none else parseDigits cs 0

/-- CPython `int(str)`: optional surrounding spaces, optional sign,
decimal digits.  Underscore grouping is outside the model and no claim
depends on it. -/
def pyStrToInt? (s : String) : Option ℤ :=
  match trimChars s.toList with
  | '-' :: rest => (parseNatChars rest).map (fun n => -(n : ℤ))
  | '+' :: rest => (parseNatChars rest).map (fun n => (n : ℤ))
  | cs => (parseNatChars cs).map (fun n => (n : ℤ))

/-- CPython `int(x)` on a JSON-style value. -/
def pyIntCoerce : Value → Except PyExc ℤ
  | .vnum q => .ok (pyTrunc q)
  | .vbool b => .ok (if b then 1 else 0)
  | .vstr s =>
      match pyStrToInt? s with
      | some n => .ok n
      | none => .error (.valueError
          ("invalid literal for int() with base 10: " ++ pyReprStr s))
  | .vnull => .error (.typeError
      ("int() argument must be a string, a bytes-like object or a real number, not \x27NoneType\x27"))
  | .varr _ => .error (.typeError
      ("int() argument must be a string, a bytes-like object or a real number, not \x27list\x27"))
  | .vobj _ => .error (.typeError
      ("int() argument must be a string, a bytes-like object or a real number, not \x27dict\x27"))

/-- Split a character list at the first `.`, when present. -/
def breakAtDot : List Char → List Char × Option (List Char)
  | [] => ([], none)
  | c :: t =>
      if c = '.' then ([], some t)
      else
        let r := breakAtDot t
        (c :: r.1, r.2)

/-- Parse an unsigned decimal float literal `digits[.digits]` (either
digit group may be empty, not both) into ℚ. -/
def parseFloatChars (cs : List Char) : Option ℚ :=
  match breakAtDot cs with
  | (intPart, none) => (parseNatChars intPart).map (fun n => (n : ℚ))
  | (intPart, some fracPart) =>
      if intPart.isEmpty && fracPart.isEmpty then none
      else
        match (if intPart.isEmpty then some 0 else parseNatChars intPart),
            (if fracPart.isEmpty then some 0 else parseNatChars fracPart) with
        | some n, some f =>
            some ((n : ℚ) + (f : ℚ) / ((10 : ℚ) ^ fracPart.length))
        | _, _ => none

/-- CPython `float(str)` on decimal literals: optional surrounding
spaces, optional sign, `digits[.digits]`.  Exponents, `inf`/`nan` and
underscores are outside the model and no claim depends on them. -/
def pyStrToFloat? (s : String) : Option ℚ :=
  match trimChars s.toList with
  | '-' :: rest => (parseFloatChars rest).map (fun q => -q)
  | '+' :: rest => parseFloatChars rest
  | cs => parseFloatChars cs

/-- CPython `float(x)` on a JSON-style value. -/
def pyFloat : Value → Except PyExc ℚ
  | .vnum q => .ok q
  | .vbool b => .ok (if b then 1 else 0)
  | .vstr s =>
      match pyStrToFloat? s with
      | some q => .ok q
      | none => .error (.valueError
          ("could not convert string to float: " ++ pyReprStr s))
  | .vnull => .error (.typeError
      ("float() argument must be a string or a real number, not \x27NoneType\x27"))
  | .varr _ => .error (.typeError
      ("float() argument must be a string or a real number, not \x27list\x27"))
  | .vobj _ => .error (.typeError
      ("float() argument must be a string or a real number, not \x27dict\x27"))

/-- Python `x or fallback` for strings: the empty string is falsy. -/
def orFallback (s fallback : String) : String := if s = "" then fallback else s

-- ---------------------------------------------------------------------------
-- Discovery: census endpoint and per-device object scan (endpoints.py:187-286)
-- ---------------------------------------------------------------------------

/-- `obs.discovery.types` protocol reference: network address plus the
protocol-level device identifier, an arbitrary scan-supplied value that
may be absent. -/
structure ProtocolRef where
  address : String
  device_id : Option Value
  deriving Repr

/-- `obs.discovery.types.Device` as used by `_device_to_census`: stable
`uid` handle, optional name/manufacturer, `points` collection (only its
length is read) and optional `protocol_ref`. -/
structure Device where
  uid : String
  name : Option String
  manufacturer : Option String
  points : List Value
  protocol_ref : Option ProtocolRef
  deriving Repr

/-- Result of the external `scan_network` call. -/
structure ScanResult where
  success : Bool
  data : List Device
  errors : List String
  deriving Repr

/-- `DeviceCensusEntry` (endpoints.py:137-143). -/
structure DeviceCensusEntry where
  device_address : String
  device_id : ℤ
  device_name : Option String
  vendor : Option String
  object_count : ℕ
  device_uid : Option String
  deriving Repr, DecidableEq

/-- The census cache `_last_device_uids_by_id` (endpoints.py:188): a
Python dict from integer device id to uid handle, modelled as an
insertion-ordered association list with unique keys. -/
abbrev CensusCache := List (ℤ × String)

/-- Python `d[k] = v` on the cache dict: overwrite the existing entry in
place, else append. -/
def cacheInsert : CensusCache → ℤ → String → CensusCache
  | [], k, v => [(k, v)]
  | p :: t, k, v => if p.1 = k then (k, v) :: t else p :: cacheInsert t k v

/-- Python `d.get(k)` on the cache dict. -/
def cacheGet : CensusCache → ℤ → Option String
  | [], _ => none
  | p :: t, k => if p.1 = k then some p.2 else cacheGet t k

/-- `_device_to_census` (endpoints.py:199-216).  Raises `ValueError` when
`protocol_ref` or its `device_id` is missing, re-raises the
`int()` failure as `ValueError` for an unparsable value; a `TypeError`
from `int()` is not caught by the `except ValueError` clause and
propagates unchanged. -/
def _device_to_census (device : Device) : Except PyExc DeviceCensusEntry :=
  match device.protocol_ref with
  | none => .error (.valueError
      ("Device " ++ device.uid ++ " is missing protocol_ref.device_id"))
  | some protocol_ref =>
    match protocol_ref.device_id with
    | none => .error (.valueError
        ("Device " ++ device.uid ++ " is missing protocol_ref.device_id"))
    | some v =>
      match pyIntCoerce v with
      | .ok device_id => .ok
          { device_address := protocol_ref.address,
            device_id := device_id,
            device_name := device.name,
            vendor := device.manufacturer,
            object_count := device.points.length,
            device_uid := some device.uid }
      | .error (.valueError _) => .error (.valueError
          ("Device " ++ device.uid ++
            " has non-integer protocol_ref.device_id=" ++ pyRepr v))
      | .error e => .error e

/-- The `for device in result.data` loop body of `discover_census`
(endpoints.py:243-246): derive each census row and pair it with the
device's uid for the `uid_map` write; a failing row aborts the whole
loop with the exception. -/
def censusRows : List Device → Except PyExc (List (DeviceCensusEntry × String))
  | [] => .ok []
  | d :: ds =>
    match _device_to_census d with
    | .error e => .error e
    | .ok row =>
      match censusRows ds with
      | .error e => .error e
      | .ok rest => .ok ((row, d.uid) :: rest)

/-- `uid_map` as built by the loop: successive `uid_map[row.device_id] =
device.uid` writes into an initially empty dict. -/
def buildUidMap (rows : List (DeviceCensusEntry × String)) : CensusCache :=
  rows.foldl (fun m p => cacheInsert m p.1.device_id p.2) []

/-- How a `discover_census` request fails: `HTTPException 500` when the
scan reports failure, or the uncaught exception from `_device_to_census`
(a `ValueError` is the spec's ValidationFailure). -/
inductive CensusError where
  | scanFailure (detail : String)
  | uncaught (exc : PyExc)
  deriving Repr, DecidableEq

/-- `discover_census` (endpoints.py:219-253) as a state transformer on the
census cache, taking the already-awaited `scan_network` result.  On any
failure the cache is left untouched; on success the cache is replaced
wholesale by `uid_map` (`clear()` then `update(uid_map)` under the lock). -/
def discover_census (st : CensusCache) (result : ScanResult) :
    Except CensusError (List DeviceCensusEntry) × CensusCache :=
  if result.success = false then
    (.error (.scanFailure ("Network scan failed: " ++
      orFallback (String.intercalate "; " result.errors)
        "Unknown BACnet scan failure")), st)
  else
    match censusRows result.data with
    | .error e => (.error (.uncaught e), st)
    | .ok rows => (.ok (rows.map (fun p => p.1)), buildUidMap rows)

/-- Result of the external `discover_objects` call; its payload is left
opaque and consumed only by the `objects_result_to_graph` oracle. -/
structure ObjectsResult where
  success : Bool
  data : Value
  errors : List String
  deriving Repr

/-- How a `discover_device_objects` request fails: 404 on a cache miss,
500 when the object scan reports failure. -/
inductive ObjectsError where
  | notFound (detail : String)
  | scanFailure (detail : String)
  deriving Repr, DecidableEq

/-- `discover_device_objects` (endpoints.py:256-286): look the id up in
the census cache, fail 404 on a miss without touching the scan service,
otherwise run the scan oracle on the resolved uid and convert the result. -/
def discover_device_objects (st : CensusCache) (device_id : ℤ)
    (discover_objects : String → ObjectsResult)
    (objects_result_to_graph : ObjectsResult → Graph) :
    Except ObjectsError GraphResponse :=
  match cacheGet st device_id with
  | none => .error (.notFound ("Device " ++ toString device_id ++
      " not found in last census. Run GET /discover first."))
  | some uid =>
    let result := discover_objects uid
    if result.success = false then
      .error (.scanFailure ("Failed to scan device " ++ toString device_id ++
        ": " ++ orFallback (String.intercalate "; " result.errors)
          "Unknown BACnet object discovery failure"))
    else .ok (GraphResponse.from_graph (objects_result_to_graph result))

-- ---------------------------------------------------------------------------
-- Ontology registry (endpoints.py:180-196) and classify (endpoints.py:289-331)
-- ---------------------------------------------------------------------------

/-- `OntologyInfo` (endpoints.py:180-184). -/
structure OntologyInfo where
  id : String
  name : String
  version : Option String := none
  url : Option String := none
  deriving Repr, DecidableEq

/-- `_ONTOLOGIES` (endpoints.py:189-196): the static registry dict. -/
def _ONTOLOGIES : List (String × OntologyInfo) :=
  [("brick_v1.4.4",
    { id := "brick_v1.4.4", name := "Brick", version := some "1.4.4",
      url := some "https://brickschema.org/schema/1.4.4/Brick.jsonld" })]

/-- `_ONTOLOGIES.get(key)`. -/
def ontologiesGet (oid : String) : Option OntologyInfo :=
  (_ONTOLOGIES.find? (fun p => p.1 = oid)).map (fun p => p.2)

/-- Truthiness of `d.get(k)`: false when the key is absent (`None`) or its
value is falsy. -/
def pyGetTruthy (d : PyDict) (k : String) : Bool :=
  match pyGet d k with
  | some v => pyTruthy v
  | none => false

/-- Python `d[k] = v` on a string-keyed dict. -/
def pySet : PyDict → String → Value → PyDict
  | [], k, v => [(k, v)]
  | p :: t, k, v => if p.1 = k then (k, v) :: t else p :: pySet t k v

/-- The module-level 'initial state' of the census cache: the empty dict
(endpoints.py:188). -/
def initialCensusCache : CensusCache := []

/-- Topology-shorthand resolution in `classify_graph_endpoint`
(endpoints.py:295-304): when `id` is a string and both `url` and
`content` are falsy, substitute the registry url (itself checked for
truthiness) into the payload. -/
def resolveTopologyPayload (topology : PyDict) : PyDict :=
  let topology_payload := topology
  match pyGet topology_payload "id" with
  | some (.vstr topology_id) =>
      if !pyGetTruthy topology_payload "url" &&
          !pyGetTruthy topology_payload "content" then
        match ontologiesGet topology_id with
        | some known =>
            match known.url with
            | some u =>
                if u ≠ "" then pySet topology_payload "url" (.vstr u)
                else topology_payload
            | none => topology_payload
        | none => topology_payload
      else topology_payload
  | _ => topology_payload

/-- `obs.classifier.TopologyInput` as built at endpoints.py:305-310. -/
structure TopologyInput where
  id : Option Value
  url : Option Value
  content : Option Value
  format : Option Value
  deriving Repr

/-- Construction of `TopologyInput` from the (resolved) payload dict. -/
def topologyInputOfPayload (payload : PyDict) : TopologyInput :=
  { id := pyGet payload "id", url := pyGet payload "url",
    content := pyGet payload "content", format := pyGet payload "format" }

/-- `obs.classifier.ClassifyOptions` as built at endpoints.py:311-317. -/
structure ClassifyOptions where
  min_confidence : ℚ
  use_llm : Bool
  metadata : PyDict
  deriving Repr

/-- Option parsing of `classify_graph_endpoint` (endpoints.py:311-317):
`min_confidence` is `float(options.get("min_confidence", 0.5))`,
`use_llm` is `bool(options.get("use_llm", False))`, `metadata` is a dict
copy when the supplied value is a dict and `{}` otherwise. -/
def classifyParseOptions (options : PyDict) : Except PyExc ClassifyOptions :=
  match pyFloat ((pyGet options "min_confidence").getD (.vnum (1/2))) with
  | .error exc => .error exc
  | .ok min_confidence =>
    .ok { min_confidence := min_confidence,
          use_llm := pyTruthy ((pyGet options "use_llm").getD (.vbool false)),
          metadata :=
            match pyGet options "metadata" with
            | some (.vobj fields) => fields
            | _ => [] }

/-- `str(exc)` for a coercion exception: the carried message. -/
def PyExc.message : PyExc → String
  | .valueError msg => msg
  | .typeError msg => msg

/-- Result of the external `classify_graph_sync` call. -/
structure ClassifyResult where
  success : Bool
  graph : Graph
  errors : List String
  deriving Repr

/-- An `HTTPException` as raised by the handlers. -/
structure HttpError where
  status_code : ℕ
  detail : String
  deriving Repr, DecidableEq

/-- `classify_graph_endpoint` (endpoints.py:289-331), with the external
classification service as an oracle.  A `ValueError`/`TypeError` during
request normalization becomes a 400; a service-reported failure becomes
a 422 with the first error string (or a generic message). -/
def classify_graph_endpoint
    (classify_graph_sync : Graph → TopologyInput → ClassifyOptions → ClassifyResult)
    (graph : GraphResponse) (topology : PyDict) (options : PyDict) :
    Except HttpError GraphResponse :=
  let graph_input := graph.to_graph
  let topology_payload := resolveTopologyPayload topology
  let topo := topologyInputOfPayload topology_payload
  match classifyParseOptions options with
  | .error exc => .error
      { status_code := 400, detail := "Invalid classify request: " ++ exc.message }
  | .ok opts =>
    let result := classify_graph_sync graph_input topo opts
    if result.success = false then
      .error { status_code := 422,
               detail := (result.errors.head?).getD "Classification failed" }
    else .ok (GraphResponse.from_graph result.graph)

-- ---------------------------------------------------------------------------
-- Enhance (endpoints.py:156-177 and 334-405)
-- ---------------------------------------------------------------------------

/-- `obs.llm.LLMOptions` as built at endpoints.py:342-351.  `backend`,
`model` and `base_url` are passed through without coercion. -/
structure LLMOptions where
  backend : Value
  model : Value
  base_url : Value
  min_confidence_threshold : ℚ
  batch_size : ℤ
  force : Bool
  deriving Repr

/-- Option parsing of `enhance_graph_endpoint` (endpoints.py:341-351),
with the documented defaults; `float`/`int` coercion failures raise in
argument order. -/
def enhanceParseOptions (opts_dict : PyDict) : Except PyExc LLMOptions :=
  match pyFloat ((pyGet opts_dict "min_confidence_threshold").getD (.vnum (7/10))) with
  | .error exc => .error exc
  | .ok min_confidence_threshold =>
   match pyIntCoerce ((pyGet opts_dict "batch_size").getD (.vnum 10)) with
   | .error exc => .error exc
   | .ok batch_size =>
    .ok { backend := (pyGet opts_dict "backend").getD (.vstr "transformers"),
          model := (pyGet opts_dict "model").getD
            (.vstr "HuggingFaceTB/SmolLM2-1.7B-Instruct"),
          base_url := (pyGet opts_dict "base_url").getD
            (.vstr "http://localhost:11434/v1"),
          min_confidence_threshold := min_confidence_threshold,
          batch_size := batch_size,
          force := pyTruthy ((pyGet opts_dict "force").getD (.vbool false)) }

/-- Python `value < q` against a float threshold: numeric values compare,
anything else raises `TypeError`.  The type name in the message follows
CPython. -/
def pyLtNum (v : Value) (q : ℚ) : Except PyExc Bool :=
  match v with
  | .vnum x => .ok (decide (x < q))
  | .vbool b => .ok (decide ((if b then (1 : ℚ) else 0) < q))
  | .vnull => .error (.typeError
      "\x27<\x27 not supported between instances of \x27NoneType\x27 and \x27float\x27")
  | .vstr _ => .error (.typeError
      "\x27<\x27 not supported between instances of \x27str\x27 and \x27float\x27")
  | .varr _ => .error (.typeError
      "\x27<\x27 not supported between instances of \x27list\x27 and \x27float\x27")
  | .vobj _ => .error (.typeError
      "\x27<\x27 not supported between instances of \x27dict\x27 and \x27float\x27")

/-- `[n for n in graph_input.nodes if "class" in n.attrs]`
(endpoints.py:354): key containment, not truthiness. -/
def nodesWithClass (g : Graph) : List Node :=
  g.nodes.filter (fun n => (pyGet n.attrs "class").isSome)

/-- The `low_confidence` comprehension (endpoints.py:355-360):
`n.attrs.get("class_confidence", 0.0) < threshold`, left to right, a
`TypeError` on a non-numeric attribute aborting the whole comprehension. -/
def lowConfidenceNodes (nodes : List Node) (threshold : ℚ) :
    Except PyExc (List Node) :=
  match nodes with
  | [] => .ok []
  | n :: t =>
    match pyLtNum ((pyGet n.attrs "class_confidence").getD (.vnum 0)) threshold with
    | .error e => .error e
    | .ok b =>
      match lowConfidenceNodes t threshold with
      | .error e => .error e
      | .ok rest => .ok (if b then n :: rest else rest)

/-- One per-node suggestion from the enhancement service. -/
structure EnhancementRecord where
  node_id : String
  original_class : Option String
  original_confidence : ℚ
  suggested_class : String
  llm_confidence : ℚ
  reasoning : String
  applied : Bool
  deriving Repr, DecidableEq

/-- `EnhancementResponse` (endpoints.py:161-168). -/
structure EnhancementResponse where
  node_id : String
  original_class : Option String
  original_confidence : ℚ
  suggested_class : String
  llm_confidence : ℚ
  reasoning : String
  applied : Bool
  deriving Repr, DecidableEq

/-- Field-for-field construction at endpoints.py:385-396. -/
def EnhancementResponse.ofRecord (e : EnhancementRecord) : EnhancementResponse :=
  { node_id := e.node_id, original_class := e.original_class,
    original_confidence := e.original_confidence,
    suggested_class := e.suggested_class, llm_confidence := e.llm_confidence,
    reasoning := e.reasoning, applied := e.applied }

/-- Result of the external `enhance_graph_sync` call; `metadata` carries
the integer observability counts. -/
structure EnhanceResult where
  success : Bool
  graph : Graph
  enhancements : List EnhancementRecord
  metadata : List (String × ℤ)
  errors : List String
  deriving Repr

/-- `result.metadata.get(key, 0)`. -/
def metaGet (m : List (String × ℤ)) (k : String) : Option ℤ :=
  (m.find? (fun p => p.1 = k)).map (fun p => p.2)

/-- `EnhanceResponse` (endpoints.py:171-177). -/
structure EnhanceResponse where
  graph : GraphResponse
  enhancements : List EnhancementResponse
  success : Bool
  errors : List String
  nodes_evaluated : ℤ
  nodes_enhanced : ℤ
  deriving Repr

/-- `enhance_graph_endpoint` (endpoints.py:334-405), with the external
enhancement service as an oracle.  Option parsing and the observability
count computation sit inside the `try` block, so a coercion or
comparison `TypeError`/`ValueError` becomes a 400; the service result is
wrapped into the response unconditionally, `success = false` included. -/
def enhance_graph_endpoint
    (enhance_graph_sync : Graph → LLMOptions → EnhanceResult)
    (graph : GraphResponse) (options : PyDict) :
    Except HttpError EnhanceResponse :=
  let graph_input := graph.to_graph
  match enhanceParseOptions options with
  | .error exc => .error
      { status_code := 400, detail := "Invalid enhance request: " ++ exc.message }
  | .ok llm_options =>
    match lowConfidenceNodes (nodesWithClass graph_input)
        llm_options.min_confidence_threshold with
    | .error exc => .error
        { status_code := 400, detail := "Invalid enhance request: " ++ exc.message }
    | .ok _low_confidence =>
      let result := enhance_graph_sync graph_input llm_options
      .ok { graph := GraphResponse.from_graph result.graph,
            enhancements := result.enhancements.map EnhancementResponse.ofRecord,
            success := result.success,
            errors := result.errors,
            nodes_evaluated := (metaGet result.metadata "nodes_evaluated").getD 0,
            nodes_enhanced := (metaGet result.metadata "nodes_enhanced").getD 0 }

-- ---------------------------------------------------------------------------
-- Ontology fetch (endpoints.py:437-463)
-- ---------------------------------------------------------------------------

/-- `get_ontology` (endpoints.py:437-463).  `fetch n url t` is the
outcome of the `(n+1)`-th hypothetical `urllib.request.urlopen(url,
timeout=t)` attempt (`Except.error` = `OSError`, timeouts included); the
handler performs exactly one attempt, with `timeout=20`.  `jsonLoads`
and `yamlSafeLoad` are the decoder oracles; JSON is attempted first and
YAML on JSON failure; an I/O failure or a failure of both decoders
becomes a 502 naming the ontology id and the exception. -/
def get_ontology (fetch : ℕ → String → ℕ → Except String String)
    (jsonLoads : String → Except String Value)
    (yamlSafeLoad : String → Except String Value)
    (ontology_id : String) : Except HttpError Value :=
  match ontologiesGet ontology_id with
  | none =>
      .error { status_code := 404,
               detail := "Ontology " ++ pyReprStr ontology_id ++ " not found" }
  | some ontology =>
    if pyTruthyStrOpt ontology.url = false then
      .error { status_code := 404,
               detail := "Ontology " ++ pyReprStr ontology_id ++
                 " does not define a URL" }
    else
      match fetch 0 (ontology.url.getD "") 20 with
      | .error exc =>
          .error { status_code := 502,
                   detail := "Failed to fetch ontology " ++
                     pyReprStr ontology_id ++ ": " ++ exc }
      | .ok payload_raw =>
        match jsonLoads payload_raw with
        | .ok v => .ok v
        | .error _ =>
          match yamlSafeLoad payload_raw with
          | .ok v => .ok v
          | .error exc =>
              .error { status_code := 502,
                       detail := "Failed to fetch ontology " ++
                         pyReprStr ontology_id ++ ": " ++ exc }

-- ---------------------------------------------------------------------------
-- Helper lemmas
-- ---------------------------------------------------------------------------

theorem to_node_from_node (n : Node) : (NodeResponse.from_node n).to_node = n := rfl

theorem to_edge_from_edge (e : Edge) : (EdgeResponse.from_edge e).to_edge = e := rfl

theorem to_meta_from_meta (m : GraphMeta) :
    (GraphMetaResponse.from_meta m).to_meta = m := rfl

theorem map_to_from_node (l : List Node) :
    (l.map NodeResponse.from_node).map NodeResponse.to_node = l := by
  induction l with
  | nil => rfl
  | cons h t ih => rw [List.map_cons, List.map_cons, ih, to_node_from_node]

theorem map_to_from_edge (l : List Edge) :
    (l.map EdgeResponse.from_edge).map EdgeResponse.to_edge = l := by
  induction l with
  | nil => rfl
  | cons h t ih => rw [List.map_cons, List.map_cons, ih, to_edge_from_edge]

-- ---------------------------------------------------------------------------
-- Claim theorems
-- ---------------------------------------------------------------------------

/-- C1: for every Graph value `g`, `GraphResponse.from_graph(g).to_graph()`
reproduces `g` field-for-field (empty `tags`/`attrs` collections and
default `GraphMeta` included, since `g` ranges over all graphs), and
absent optional wire fields decode to the documented defaults: empty
sequence/mapping, empty string, `true` for `success`. -/
theorem graph_codec_roundtrip_and_wire_defaults :
    (∀ g : Graph, (GraphResponse.from_graph g).to_graph = g) ∧
    GraphMetaResponse.ofWire {} =
      { created_at := "", source := "", input := [], timings := [],
        success := true, errors := [], error_details := [], extra := [] } ∧
    (∀ i ty, NodeResponse.ofWire { id := i, type := ty } =
        { id := i, type := ty, tags := [], attrs := [] }) ∧
    (∀ s t ty, EdgeResponse.ofWire { source := s, target := t, type := ty } =
        { source := s, target := t, type := ty, attrs := [] }) ∧
    GraphResponse.ofWire {} =
      { nodes := [], edges := [], meta := GraphMetaResponse.ofWire {} } := by
  refine ⟨?_, rfl, fun i ty => rfl, fun s t ty => rfl, rfl⟩
  intro g
  cases g with
  | mk ns es m =>
    simp only [GraphResponse.from_graph, GraphResponse.to_graph,
      map_to_from_node, map_to_from_edge, to_meta_from_meta]

theorem cacheGet_cacheInsert (m : CensusCache) (k : ℤ) (v : String) (k' : ℤ) :
    cacheGet (cacheInsert m k v) k' = if k' = k then some v else cacheGet m k' := by
  induction m with
  | nil =>
      by_cases h : k' = k
      · subst h; simp [cacheInsert, cacheGet]
      · have h2 : ¬(k = k') := fun hh => h hh.symm
        simp [cacheInsert, cacheGet, h, h2]
  | cons p t ih =>
      by_cases hp : p.1 = k
      · simp only [cacheInsert, if_pos hp]
        by_cases h : k' = k
        · subst h; simp [cacheGet]
        · have h2 : ¬(k = k') := fun hh => h hh.symm
          have hp2 : ¬(p.1 = k') := hp.symm ▸ h2
          simp [cacheGet, h, h2, hp2]
      · simp only [cacheInsert, if_neg hp]
        by_cases h : k' = k
        · subst h
          simp [cacheGet, hp, ih]
        · by_cases hpk : p.1 = k'
          · simp [cacheGet, hpk, h]
          · simp [cacheGet, hpk, h, ih]

theorem cacheGet_foldl_insert (rows : List (DeviceCensusEntry × String))
    (init : CensusCache) (k : ℤ) :
    cacheGet (rows.foldl (fun m p => cacheInsert m p.1.device_id p.2) init) k =
      (match rows.reverse.find? (fun p => decide (p.1.device_id = k)) with
       | some p => some p.2
       | none => cacheGet init k) := by
  induction rows generalizing init with
  | nil => simp
  | cons p t ih =>
      rw [List.foldl_cons, ih, List.reverse_cons, List.find?_append]
      cases hf : t.reverse.find? (fun q => decide (q.1.device_id = k)) with
      | some q => simp [Option.or]
      | none =>
          simp only [Option.or]
          by_cases h : p.1.device_id = k
          · simp [List.find?, h, cacheGet_cacheInsert]
          · have h2 : ¬(k = p.1.device_id) := fun hh => h hh.symm
            simp [List.find?, h, h2, cacheGet_cacheInsert]

theorem censusRows_error_of_mem (ds : List Device) (d : Device) (exc : PyExc)
    (hmem : d ∈ ds) (he : _device_to_census d = .error exc) :
    ∃ exc', censusRows ds = .error exc' := by
  induction ds with
  | nil => cases hmem
  | cons a t ih =>
      cases hmem with
      | head => exact ⟨exc, by simp [censusRows, he]⟩
      | tail _ hm =>
          obtain ⟨e', he'⟩ := ih hm
          cases ha : _device_to_census a with
          | error e2 => exact ⟨e2, by simp [censusRows, ha]⟩
          | ok row => exact ⟨e', by simp [censusRows, ha, he']⟩

theorem censusRows_error_unique (ds : List Device) (d : Device) (e : String)
    (hmem : d ∈ ds)
    (he : _device_to_census d = .error (.valueError e))
    (hothers : ∀ d' ∈ ds, d' = d ∨ ∃ row, _device_to_census d' = .ok row) :
    censusRows ds = .error (.valueError e) := by
  induction ds with
  | nil => cases hmem
  | cons a t ih =>
      rcases hothers a (List.mem_cons_self a t) with ha | ⟨row, hrow⟩
      · subst ha
        simp [censusRows, he]
      · have had : a ≠ d := by
          intro hh
          rw [hh, he] at hrow
          cases hrow
        have hmem' : d ∈ t := by
          cases hmem with
          | head => exact absurd rfl had
          | tail _ hm => exact hm
        have ht := ih hmem' (fun d' hd' => hothers d' (List.mem_cons_of_mem a hd'))
        simp [censusRows, hrow, ht]

theorem censusRows_ok_spec (ds : List Device)
    (rows : List (DeviceCensusEntry × String))
    (h : censusRows ds = .ok rows) :
    rows.length = ds.length ∧
    ∀ i (h1 : i < ds.length) (h2 : i < rows.length),
      _device_to_census (ds.get ⟨i, h1⟩) = .ok (rows.get ⟨i, h2⟩).1 ∧
      (rows.get ⟨i, h2⟩).2 = (ds.get ⟨i, h1⟩).uid := by
  induction ds generalizing rows with
  | nil =>
      simp [censusRows] at h
      subst h
      exact ⟨rfl, fun i h1 _ => absurd h1 (Nat.not_lt_zero i)⟩
  | cons a t ih =>
      cases ha : _device_to_census a with
      | error e2 => simp [censusRows, ha] at h
      | ok row =>
          cases hr : censusRows t with
          | error e2 => simp [censusRows, ha, hr] at h
          | ok rest =>
              simp only [censusRows, ha, hr, Except.ok.injEq] at h
              subst h
              obtain ⟨hlen, hidx⟩ := ih rest hr
              refine ⟨by simp [hlen], ?_⟩
              intro i h1 h2
              cases i with
              | zero => exact ⟨ha, rfl⟩
              | succ n =>
                  exact hidx n (Nat.lt_of_succ_lt_succ h1) (Nat.lt_of_succ_lt_succ h2)

/-- A well-formed discovered device with the given integer protocol id and
uid handle, as `scan_network` would report it. -/
def censusDevice (device_id : ℤ) (uid : String) : Device :=
  { uid := uid, name := none, manufacturer := none, points := [],
    protocol_ref := some { address := "192.168.0.1", device_id := some (.vnum device_id) } }

/-- The census entry `_device_to_census` derives from `censusDevice`. -/
def censusEntryOf (device_id : ℤ) (uid : String) : DeviceCensusEntry :=
  { device_address := "192.168.0.1", device_id := device_id, device_name := none,
    vendor := none, object_count := 0, device_uid := some uid }

/-- C2: each successful census replaces the cache wholesale.  After a
successful census mapping device 5 to uid "X", lookup of 5 yields "X";
after a second successful census mapping only 7 to "Y", lookup of 5 is
not-found and lookup of 7 yields "Y"; and the post-census cache never
depends on the prior cache contents (no partial update). -/
theorem census_replaces_cache_wholesale :
    (∀ st : CensusCache,
      discover_census st { success := true, data := [censusDevice 5 "X"], errors := [] } =
        (.ok [censusEntryOf 5 "X"], [(5, "X")])) ∧
    cacheGet [(5, "X")] 5 = some "X" ∧
    (∀ st : CensusCache,
      discover_census st { success := true, data := [censusDevice 7 "Y"], errors := [] } =
        (.ok [censusEntryOf 7 "Y"], [(7, "Y")])) ∧
    cacheGet [(7, "Y")] 5 = none ∧
    cacheGet [(7, "Y")] 7 = some "Y" ∧
    (∀ (st st' : CensusCache) (result : ScanResult),
      (∃ out, (discover_census st result).1 = .ok out) →
      discover_census st result = discover_census st' result) := by
  refine ⟨fun st => rfl, rfl, fun st => rfl, rfl, rfl, ?_⟩
  rintro st st' result ⟨out, hout⟩
  cases hsucc : result.success with
  | false => simp [discover_census, hsucc] at hout
  | true =>
      cases hrows : censusRows result.data with
      | error e => simp [discover_census, hsucc, hrows] at hout
      | ok rows => simp [discover_census, hsucc, hrows]

/-- C2 witness: a fresh successful census from a non-empty prior cache
produces the same outcome as from the empty cache. -/
theorem census_replaces_cache_wholesale_witness :
    discover_census [(99, "OLD")]
        { success := true, data := [censusDevice 5 "X"], errors := [] } =
      discover_census []
        { success := true, data := [censusDevice 5 "X"], errors := [] } :=
  census_replaces_cache_wholesale.2.2.2.2.2 [(99, "OLD")] []
    { success := true, data := [censusDevice 5 "X"], errors := [] }
    ⟨[censusEntryOf 5 "X"], rfl⟩

/-- A scanned device whose protocol-level identifier is the non-integer
string "abc". -/
def badDevice : Device :=
  { uid := "BAD", name := none, manufacturer := none, points := [],
    protocol_ref := some { address := "192.168.0.9", device_id := some (.vstr "abc") } }

/-- C3: a device with a missing or non-integer-representable identifier
fails the whole census with the `ValueError` (ValidationFailure) raised
for that device, even when every other device is valid, and any failing
census leaves the cache unchanged. -/
theorem census_validation_failure_no_partial (st : CensusCache)
    (result : ScanResult) (d : Device) (e : String)
    (hs : result.success = true)
    (hmem : d ∈ result.data)
    (he : _device_to_census d = .error (.valueError e))
    (hothers : ∀ d' ∈ result.data, d' = d ∨ ∃ row, _device_to_census d' = .ok row) :
    (discover_census st result).1 = .error (.uncaught (.valueError e)) ∧
    (discover_census st result).2 = st ∧
    (∀ (st' : CensusCache) (r' : ScanResult),
      (∃ exc, (discover_census st' r').1 = .error exc) →
      (discover_census st' r').2 = st') := by
  have hrows := censusRows_error_unique result.data d e hmem he hothers
  refine ⟨by simp [discover_census, hs, hrows], by simp [discover_census, hs, hrows], ?_⟩
  rintro st' r' ⟨exc, hexc⟩
  cases hsucc : r'.success with
  | false => simp [discover_census, hsucc]
  | true =>
      cases hr : censusRows r'.data with
      | error e2 => simp [discover_census, hsucc, hr]
      | ok rows => simp [discover_census, hsucc, hr] at hexc

/-- C3 witness: a census over one valid device and one device whose
identifier is "abc" fails wholly with the ValidationFailure and leaves a
non-empty prior cache intact. -/
theorem census_validation_failure_no_partial_witness :
    (discover_census [(1, "old")]
        { success := true, data := [censusDevice 7 "G", badDevice], errors := [] }).1 =
      .error (.uncaught (.valueError
        "Device BAD has non-integer protocol_ref.device_id=\x27abc\x27")) ∧
    (discover_census [(1, "old")]
        { success := true, data := [censusDevice 7 "G", badDevice], errors := [] }).2 =
      [(1, "old")] := by
  have h := census_validation_failure_no_partial [(1, "old")]
    { success := true, data := [censusDevice 7 "G", badDevice], errors := [] }
    badDevice "Device BAD has non-integer protocol_ref.device_id=\x27abc\x27"
    rfl (List.Mem.tail _ (List.Mem.head _)) (by decide) ?_
  · exact ⟨h.1, h.2.1⟩
  · intro d' hd'
    cases hd' with
    | head => exact Or.inr ⟨censusEntryOf 7 "G", rfl⟩
    | tail _ h2 =>
        cases h2 with
        | head => exact Or.inl rfl
        | tail _ h3 => cases h3

/-- C4: for every device id, a `GET /discover/{device_id}/objects` request
against the initial (never-populated) census cache fails with the 404
NotFound instructing the caller to run a census first, whatever the
object-discovery service and graph conversion would return — the result
does not depend on the service oracles, which models that they are not
invoked. -/
theorem objects_before_census_not_found (device_id : ℤ)
    (svc : String → ObjectsResult) (conv : ObjectsResult → Graph) :
    discover_device_objects initialCensusCache device_id svc conv =
      .error (.notFound ("Device " ++ toString device_id ++
        " not found in last census. Run GET /discover first.")) := rfl

/-- A census scan result containing two devices that share device id 5. -/
def dupScanResult : ScanResult :=
  { success := true, data := [censusDevice 5 "A", censusDevice 5 "B"], errors := [] }

/-- C10: a successful census returns one entry per device in scan order
(lengths match and the i-th entry is derived from the i-th device), while
the rebuilt cache maps each device id to the uid of the LAST device with
that id in the scan result (later devices overwrite earlier ones). -/
theorem census_duplicate_ids_last_wins (st : CensusCache) (result : ScanResult)
    (rows : List (DeviceCensusEntry × String))
    (hs : result.success = true)
    (hrows : censusRows result.data = .ok rows) :
    (discover_census st result).1 = .ok (rows.map (fun p => p.1)) ∧
    rows.length = result.data.length ∧
    (∀ i (h1 : i < result.data.length) (h2 : i < rows.length),
        _device_to_census (result.data.get ⟨i, h1⟩) = .ok (rows.get ⟨i, h2⟩).1 ∧
        (rows.get ⟨i, h2⟩).2 = (result.data.get ⟨i, h1⟩).uid) ∧
    (∀ k : ℤ, cacheGet (discover_census st result).2 k =
        (rows.reverse.find? (fun p => decide (p.1.device_id = k))).map
          (fun p => p.2)) := by
  have hspec := censusRows_ok_spec result.data rows hrows
  refine ⟨by simp [discover_census, hs, hrows], hspec.1, hspec.2, ?_⟩
  intro k
  have hst : (discover_census st result).2 = buildUidMap rows := by
    simp [discover_census, hs, hrows]
  rw [hst, buildUidMap, cacheGet_foldl_insert]
  cases hf : rows.reverse.find? (fun p => decide (p.1.device_id = k)) with
  | some q => simp
  | none => simp [cacheGet]

/-- C10 witness: scanning devices (5, "A") then (5, "B") yields two census
entries in scan order, while the cache resolves 5 to "B". -/
theorem census_duplicate_ids_last_wins_witness :
    (discover_census [] dupScanResult).1 =
      .ok [censusEntryOf 5 "A", censusEntryOf 5 "B"] ∧
    cacheGet (discover_census [] dupScanResult).2 5 = some "B" := by
  have h := census_duplicate_ids_last_wins [] dupScanResult
    [(censusEntryOf 5 "A", "A"), (censusEntryOf 5 "B", "B")] rfl rfl
  refine ⟨h.1, ?_⟩
  rw [h.2.2.2 5]
  rfl

theorem pyGet_pySet (d : PyDict) (k : String) (v : Value) (k' : String) :
    pyGet (pySet d k v) k' = if k' = k then some v else pyGet d k' := by
  induction d with
  | nil =>
      by_cases h : k' = k
      · subst h; simp [pySet, pyGet]
      · have h2 : ¬(k = k') := fun hh => h hh.symm
        simp [pySet, pyGet, h, h2]
  | cons p t ih =>
      by_cases hp : p.1 = k
      · simp only [pySet, if_pos hp]
        by_cases h : k' = k
        · subst h; simp [pyGet]
        · have h2 : ¬(k = k') := fun hh => h hh.symm
          have hp2 : ¬(p.1 = k') := hp.symm ▸ h2
          simp [pyGet, h, h2, hp2]
      · simp only [pySet, if_neg hp]
        by_cases h : k' = k
        · subst h
          simp [pyGet, hp, ih]
        · by_cases hpk : p.1 = k'
          · simp [pyGet, hpk, h]
          · simp [pyGet, hpk, h, ih]

/-- C5 counterexample: the topology payload
`{id: "brick_v1.4.4", url: ""}` supplies an explicit `url` (the key is
present, bound to the empty string), yet the builder overwrites it with
the registry url, because the code tests `url` with Python truthiness
and the empty string is falsy. -/
theorem topology_explicit_url_overwritten :
    pyGet [("id", Value.vstr "brick_v1.4.4"), ("url", Value.vstr "")] "url" =
      some (.vstr "") ∧
    resolveTopologyPayload
        [("id", Value.vstr "brick_v1.4.4"), ("url", Value.vstr "")] =
      [("id", Value.vstr "brick_v1.4.4"),
       ("url", Value.vstr "https://brickschema.org/schema/1.4.4/Brick.jsonld")] :=
  ⟨rfl, rfl⟩

/-- C5 (amended): a topology reference supplying a string `id` whose
`url` and `content` are absent or falsy is resolved to the registry url
registered for that id (when that url is a non-empty string); a topology
reference whose `url` is truthy (in particular any non-empty url string)
is never touched by the registry.  A falsy explicit `url` — e.g. the
empty string — is treated as absent and may be overwritten. -/
theorem topology_shorthand_resolution (p : PyDict) :
    (∀ tid known u,
      pyGet p "id" = some (.vstr tid) →
      pyGetTruthy p "url" = false →
      pyGetTruthy p "content" = false →
      ontologiesGet tid = some known →
      known.url = some u →
      u ≠ "" →
      pyGet (resolveTopologyPayload p) "url" = some (.vstr u)) ∧
    (pyGetTruthy p "url" = true → resolveTopologyPayload p = p) := by
  constructor
  · intro tid known u hid hurl hcontent hreg hku hne
    simp only [resolveTopologyPayload, hid, hurl, hcontent, hreg, hku]
    simp [hne, pyGet_pySet]
  · intro hurl
    simp only [resolveTopologyPayload]
    cases hid : pyGet p "id" with
    | none => rfl
    | some v => cases v <;> simp [hurl]

/-- C5 witness: `{id: "brick_v1.4.4"}` with no url/content resolves to
the registry url, and a payload with a non-empty explicit url is
returned unchanged. -/
theorem topology_shorthand_resolution_witness :
    pyGet (resolveTopologyPayload [("id", Value.vstr "brick_v1.4.4")]) "url" =
      some (.vstr "https://brickschema.org/schema/1.4.4/Brick.jsonld") ∧
    resolveTopologyPayload [("url", Value.vstr "http://example.com/x.ttl")] =
      [("url", Value.vstr "http://example.com/x.ttl")] := by
  constructor
  · exact (topology_shorthand_resolution _).1 "brick_v1.4.4"
      { id := "brick_v1.4.4", name := "Brick", version := some "1.4.4",
        url := some "https://brickschema.org/schema/1.4.4/Brick.jsonld" }
      "https://brickschema.org/schema/1.4.4/Brick.jsonld"
      rfl rfl rfl rfl rfl (by decide)
  · exact (topology_shorthand_resolution _).2 rfl

/-- The classification service oracle used in concrete instances. -/
def trivialClassifySvc : Graph → TopologyInput → ClassifyOptions → ClassifyResult :=
  fun g _ _ => { success := true, graph := g, errors := [] }

/-- C6 counterexample: with `min_confidence = []` (a JSON array), option
coercion fails and the handler returns the 400 BadRequest, but its
detail names only the offending value's type (`list`), not the value:
the value's rendering `[]` does not occur in the detail string. -/
theorem classify_coercion_detail_counterexample :
    classify_graph_endpoint trivialClassifySvc (GraphResponse.ofWire {}) []
        [("min_confidence", Value.varr [])] =
      .error { status_code := 400,
               detail := "Invalid classify request: float() argument must be a string or a real number, not \x27list\x27" } ∧
    pyRepr (Value.varr []) = "[]" ∧
    strContainsSub
      "Invalid classify request: float() argument must be a string or a real number, not \x27list\x27"
      "[]" = false :=
  ⟨rfl, rfl, rfl⟩

/-- C6 (amended): classify options are parsed with defaults
`min_confidence = 0.5` (float-coerced), `use_llm = false`,
`metadata = {}`; a non-mapping `metadata` is silently replaced by the
empty mapping; any type-coercion failure produces a 400 BadRequest
carrying the coercion exception message — for a string value that fails
float parsing the detail embeds the value's quoted rendering, while for
a non-numeric, non-string value it names only the value's type. -/
theorem classify_options_parsing (options : PyDict) :
    (pyGet options "min_confidence" = none →
     pyGet options "use_llm" = none →
     pyGet options "metadata" = none →
     classifyParseOptions options =
       .ok { min_confidence := 1/2, use_llm := false, metadata := [] }) ∧
    (∀ v mc, pyGet options "metadata" = some v →
      (∀ fields, v ≠ .vobj fields) →
      classifyParseOptions options = .ok mc →
      mc.metadata = []) ∧
    (∀ exc svc graph topology, classifyParseOptions options = .error exc →
      classify_graph_endpoint svc graph topology options =
        .error { status_code := 400,
                 detail := "Invalid classify request: " ++ exc.message }) ∧
    (∀ s, pyGet options "min_confidence" = some (.vstr s) →
      pyStrToFloat? s = none →
      classifyParseOptions options =
        .error (.valueError ("could not convert string to float: " ++
          pyReprStr s))) := by
  refine ⟨?_, ?_, ?_, ?_⟩
  · intro h1 h2 h3
    simp [classifyParseOptions, h1, h2, h3, pyFloat, pyTruthy]
  · intro v mc hv hne hok
    unfold classifyParseOptions at hok
    cases hfl : pyFloat ((pyGet options "min_confidence").getD (.vnum (1/2))) with
    | error e => rw [hfl] at hok; cases hok
    | ok q =>
        rw [hfl] at hok
        injection hok with hok2
        subst hok2
        show (match pyGet options "metadata" with
              | some (.vobj fields) => fields
              | _ => []) = []
        rw [hv]
        cases v with
        | vobj fields => exact absurd rfl (hne fields)
        | vnull => rfl
        | vbool b => rfl
        | vnum q2 => rfl
        | vstr s => rfl
        | varr elems => rfl
  · intro exc svc graph topology herr
    simp [classify_graph_endpoint, herr]
  · intro s hs hparse
    simp [classifyParseOptions, hs, pyFloat, hparse]

/-- C6 witness: the empty options bag parses to the documented defaults,
and `min_confidence = "abc"` fails with the ValueError whose message
quotes the offending string. -/
theorem classify_options_parsing_witness :
    classifyParseOptions [] =
      .ok { min_confidence := 1/2, use_llm := false, metadata := [] } ∧
    classifyParseOptions [("min_confidence", Value.vstr "abc")] =
      .error (.valueError ("could not convert string to float: " ++
        pyReprStr "abc")) :=
  ⟨(classify_options_parsing []).1 rfl rfl rfl,
   (classify_options_parsing [("min_confidence", Value.vstr "abc")]).2.2.2
     "abc" rfl rfl⟩

/-- C7: enhancement options omitted from the request take the documented
defaults (backend "transformers", model
"HuggingFaceTB/SmolLM2-1.7B-Instruct", base_url
"http://localhost:11434/v1", threshold 0.7, batch_size 10, force false);
in particular a request omitting `min_confidence_threshold` behaves
exactly like one supplying 0.7, so 0.7 is the effective threshold for
the observability counts. -/
theorem enhance_option_defaults (opts : PyDict)
    (h1 : pyGet opts "backend" = none) (h2 : pyGet opts "model" = none)
    (h3 : pyGet opts "base_url" = none)
    (h4 : pyGet opts "min_confidence_threshold" = none)
    (h5 : pyGet opts "batch_size" = none) (h6 : pyGet opts "force" = none) :
    enhanceParseOptions opts = .ok
      { backend := .vstr "transformers",
        model := .vstr "HuggingFaceTB/SmolLM2-1.7B-Instruct",
        base_url := .vstr "http://localhost:11434/v1",
        min_confidence_threshold := 7/10, batch_size := 10, force := false } ∧
    (∀ svc graph, enhance_graph_endpoint svc graph opts =
      enhance_graph_endpoint svc graph
        [("min_confidence_threshold", .vnum (7/10))]) := by
  have hbs : pyIntCoerce (Value.vnum 10) = .ok 10 := rfl
  have hparse : enhanceParseOptions opts = .ok
      { backend := .vstr "transformers",
        model := .vstr "HuggingFaceTB/SmolLM2-1.7B-Instruct",
        base_url := .vstr "http://localhost:11434/v1",
        min_confidence_threshold := 7/10, batch_size := 10, force := false } := by
    unfold enhanceParseOptions
    rw [h1, h2, h3, h4, h5, h6]
    rfl
  have hparse2 : enhanceParseOptions [("min_confidence_threshold", .vnum (7/10))] =
      .ok { backend := .vstr "transformers",
            model := .vstr "HuggingFaceTB/SmolLM2-1.7B-Instruct",
            base_url := .vstr "http://localhost:11434/v1",
            min_confidence_threshold := 7/10, batch_size := 10,
            force := false } := rfl
  refine ⟨hparse, ?_⟩
  intro svc graph
  unfold enhance_graph_endpoint
  rw [hparse, hparse2]

/-- C7 witness: the empty options bag yields the default `LLMOptions` and
the same endpoint behavior as an explicit 0.7 threshold. -/
theorem enhance_option_defaults_witness :
    enhanceParseOptions [] = .ok
      { backend := .vstr "transformers",
        model := .vstr "HuggingFaceTB/SmolLM2-1.7B-Instruct",
        base_url := .vstr "http://localhost:11434/v1",
        min_confidence_threshold := 7/10, batch_size := 10, force := false } :=
  (enhance_option_defaults [] rfl rfl rfl rfl rfl rfl).1

/-- An enhancement service oracle that reports failure, used in concrete
instances. -/
def failingEnhanceSvc : Graph → LLMOptions → EnhanceResult :=
  fun g _ =>
    { success := false, graph := g, enhancements := [], metadata := [],
      errors := ["llm backend unavailable"] }

/-- C9: for every service result — `success = false` included — the
enhance endpoint returns a response bundling the resulting graph, the
per-node records in order, the service's success flag and error strings,
and the two counts from the service metadata with 0 substituted when
absent. -/
theorem enhance_wraps_service_result
    (svc : Graph → LLMOptions → EnhanceResult) (graph : GraphResponse)
    (options : PyDict) (o : LLMOptions) (low : List Node)
    (hparse : enhanceParseOptions options = .ok o)
    (hlow : lowConfidenceNodes (nodesWithClass graph.to_graph)
        o.min_confidence_threshold = .ok low) :
    enhance_graph_endpoint svc graph options = .ok
      { graph := GraphResponse.from_graph (svc graph.to_graph o).graph,
        enhancements :=
          (svc graph.to_graph o).enhancements.map EnhancementResponse.ofRecord,
        success := (svc graph.to_graph o).success,
        errors := (svc graph.to_graph o).errors,
        nodes_evaluated :=
          (metaGet (svc graph.to_graph o).metadata "nodes_evaluated").getD 0,
        nodes_enhanced :=
          (metaGet (svc graph.to_graph o).metadata "nodes_enhanced").getD 0 } := by
  simp [enhance_graph_endpoint, hparse, hlow]

/-- C9 witness: a service returning `success = false` with an error
string is wrapped unchanged into the response. -/
theorem enhance_wraps_service_result_witness :
    enhance_graph_endpoint failingEnhanceSvc (GraphResponse.ofWire {}) [] = .ok
      { graph := GraphResponse.from_graph ((GraphResponse.ofWire {}).to_graph),
        enhancements := [], success := false,
        errors := ["llm backend unavailable"],
        nodes_evaluated := 0, nodes_enhanced := 0 } :=
  enhance_wraps_service_result failingEnhanceSvc (GraphResponse.ofWire {}) []
    { backend := .vstr "transformers",
      model := .vstr "HuggingFaceTB/SmolLM2-1.7B-Instruct",
      base_url := .vstr "http://localhost:11434/v1",
      min_confidence_threshold := 7/10, batch_size := 10, force := false }
    [] rfl rfl

/-- C8: ontology fetch is 404 when the id is unknown or the registered
entry has no (truthy) url; otherwise it performs a single retrieval with
the fixed 20-second timeout, decodes as JSON first and falls back to
YAML; an I/O failure or a failure of both decoders is a 502 naming the
ontology id and the underlying cause.  The final conjunct states that
the outcome depends only on the first fetch attempt at timeout 20: there
is no retry and no other timeout. -/
theorem ontology_fetch_contract :
    (∀ oid fetch jsonLoads yamlSafeLoad, ontologiesGet oid = none →
      get_ontology fetch jsonLoads yamlSafeLoad oid =
        .error { status_code := 404,
                 detail := "Ontology " ++ pyReprStr oid ++ " not found" }) ∧
    (∀ oid ont fetch jsonLoads yamlSafeLoad, ontologiesGet oid = some ont →
      pyTruthyStrOpt ont.url = false →
      get_ontology fetch jsonLoads yamlSafeLoad oid =
        .error { status_code := 404,
                 detail := "Ontology " ++ pyReprStr oid ++
                   " does not define a URL" }) ∧
    (∀ oid ont u fetch jsonLoads yamlSafeLoad,
      ontologiesGet oid = some ont → ont.url = some u → u ≠ "" →
      (∀ e, fetch 0 u 20 = .error e →
        get_ontology fetch jsonLoads yamlSafeLoad oid =
          .error { status_code := 502,
                   detail := "Failed to fetch ontology " ++ pyReprStr oid ++
                     ": " ++ e }) ∧
      (∀ raw v, fetch 0 u 20 = .ok raw → jsonLoads raw = .ok v →
        get_ontology fetch jsonLoads yamlSafeLoad oid = .ok v) ∧
      (∀ raw ej v, fetch 0 u 20 = .ok raw → jsonLoads raw = .error ej →
        yamlSafeLoad raw = .ok v →
        get_ontology fetch jsonLoads yamlSafeLoad oid = .ok v) ∧
      (∀ raw ej ey, fetch 0 u 20 = .ok raw → jsonLoads raw = .error ej →
        yamlSafeLoad raw = .error ey →
        get_ontology fetch jsonLoads yamlSafeLoad oid =
          .error { status_code := 502,
                   detail := "Failed to fetch ontology " ++ pyReprStr oid ++
                     ": " ++ ey })) ∧
    (∀ oid fetch fetch' jsonLoads yamlSafeLoad,
      (∀ url, fetch 0 url 20 = fetch' 0 url 20) →
      get_ontology fetch jsonLoads yamlSafeLoad oid =
        get_ontology fetch' jsonLoads yamlSafeLoad oid) := by
  refine ⟨?_, ?_, ?_, ?_⟩
  · intro oid fetch jsonLoads yamlSafeLoad hreg
    simp [get_ontology, hreg]
  · intro oid ont fetch jsonLoads yamlSafeLoad hreg hurl
    simp [get_ontology, hreg, hurl]
  · intro oid ont u fetch jsonLoads yamlSafeLoad hreg hurl hne
    have htru : pyTruthyStrOpt ont.url = true := by
      rw [hurl]; simp [pyTruthyStrOpt, hne]
    have hgd : ont.url.getD "" = u := by rw [hurl]; rfl
    refine ⟨?_, ?_, ?_, ?_⟩
    · intro e hf
      simp [get_ontology, hreg, htru, hgd, hf]
    · intro raw v hf hj
      simp [get_ontology, hreg, htru, hgd, hf, hj]
    · intro raw ej v hf hj hy
      simp [get_ontology, hreg, htru, hgd, hf, hj, hy]
    · intro raw ej ey hf hj hy
      simp [get_ontology, hreg, htru, hgd, hf, hj, hy]
  · intro oid fetch fetch' jsonLoads yamlSafeLoad h
    unfold get_ontology
    cases hreg : ontologiesGet oid with
    | none => rfl
    | some ont =>
        by_cases hc : pyTruthyStrOpt ont.url = false
        · simp [hc]
        · simp only [hc, if_false]
          rw [h (ont.url.getD "")]

/-- C8 witness: fetching the registered ontology with a timing-out
retrieval oracle yields the 502 BadGateway naming the id and cause. -/
theorem ontology_fetch_contract_witness :
    get_ontology (fun _ _ _ => .error "timed out")
        (fun _ => .error "not json") (fun _ => .error "not yaml")
        "brick_v1.4.4" =
      .error { status_code := 502,
               detail := "Failed to fetch ontology \x27brick_v1.4.4\x27: timed out" } := by
  have h := (ontology_fetch_contract.2.2.1 "brick_v1.4.4"
    { id := "brick_v1.4.4", name := "Brick", version := some "1.4.4",
      url := some "https://brickschema.org/schema/1.4.4/Brick.jsonld" }
    "https://brickschema.org/schema/1.4.4/Brick.jsonld"
    (fun _ _ _ => .error "timed out") (fun _ => .error "not json")
    (fun _ => .error "not yaml") rfl rfl (by decide)).1 "timed out" rfl
  simpa using h

end Obs
